import Mathlib

/-!
Shallow embedding of `valvecontrol.py` (RPi-ValveController).

The hardware register (Sequent `lib8mosind`, external to the repository) is
modelled as a `Nat` bitmask: bit `k` holds the state of channel `k + 1`.
Every operation returns the new bitmask together with the list of hardware
events (register reads and writes) and log messages it produced, in order.
Python exceptions are modelled with `Except PyErr`: `valveopen`/`valveclose`
raise `indexError` when the `[...][0]` lookup fails, and `int()` raises
`valueError` on a malformed string.
-/

deriving instance DecidableEq for Except

namespace ValveControl

/-- A Python exception kind. `other` stands for any exception besides the two
that the `except` clauses of `parsecontrol` catch. -/
inductive PyErr where
  | valueError
  | indexError
  | other (name : String)
deriving DecidableEq, Repr

/-- A hardware event on the channel register: a `get_all` read (recording the
bitmask it returned), a single-channel `set`, or a batched `set` over a list of
channels (as in `allclose`). -/
inductive Event where
  | read (mask : Nat)
  | write (channel : Nat) (bit : Nat)
  | writeMany (chs : List Nat) (bit : Nat)
deriving DecidableEq, Repr

/-- A log record produced through `logmanager.logger`. -/
inductive LogMsg where
  | warning (msg : String)
  | info (msg : String)
deriving DecidableEq, Repr

/-- The result of an operation: the register bitmask after it, the hardware
events it performed, and the log messages it emitted. -/
abbrev Result := Nat × List Event × List LogMsg

/-- One entry of the static valve configuration table. -/
structure Valve where
  id : Nat
  channel : Nat
  description : String
  excluded : Nat
deriving DecidableEq, Repr

/-- `channels = [1,2,3]` from the source. -/
def channels : List Nat := [1, 2, 3]

/-- The `valves` configuration table from the source (`channels[0] = 1`,
`channels[1] = 2`, `channels[2] = 3`). -/
def valves : List Valve :=
  [ { id := 1, channel := 1, description := "Pipette input", excluded := 2 },
    { id := 2, channel := 2, description := "Pipette output", excluded := 1 },
    { id := 10, channel := 3, description := "Turbo", excluded := 2 } ]

/-- Modelled from the spec: the `setChannel(channel, bit)` primitive of the
Channel Register (`lib8mosind.set` is external to the repository). It is an exclusive
write of the one channel: bit `channel - 1` of the mask is set to `bit` and
every other bit is untouched. Clearing uses the xor-with-and trick because
`Nat` has no complement. -/
def setChannel (mask ch bit : Nat) : Nat :=
  if bit = 0 then mask ^^^ (mask &&& (1 <<< (ch - 1)))
  else mask ||| (1 <<< (ch - 1))

/-- Modelled from the spec: a batched register write (`lib8mosind.set` called
with a list of channels, as `allclose` does) sets each listed channel to
`bit`, left to right. -/
def setChannels (mask : Nat) (chs : List Nat) (bit : Nat) : Nat :=
  chs.foldl (fun m ch => setChannel m ch bit) mask

/-- The Python list comprehension selecting the valves whose id field equals
`valveid`, followed by indexing `[0]`: `none` models the `IndexError` raised
when no valve matches. -/
def findValve (valveid : Nat) : Option Valve :=
  (valves.filter (fun v => v.id == valveid)).head?

/-- `valveopen(valveid)`: look up the valve and its excluded counterpart
(IndexError if either is missing), read the full bitmask once, test the
bit of the channel of the excluded valve; on conflict only warn, otherwise
perform the single write `set(STACK, channel, 1)`. -/
def valveopen (valveid : Nat) (mask : Nat) : Except PyErr Result :=
  match findValve valveid with
  | none => Except.error PyErr.indexError
  | some valve =>
    match findValve valve.excluded with
    | none => Except.error PyErr.indexError
    | some excluded =>
      let status := mask
      let excluded_state := (status >>> (excluded.channel - 1)) &&& 1
      if excluded_state = 1 then
        Except.ok (mask, [Event.read status],
          [LogMsg.warning ("Cannot open valve " ++ toString valveid ++
            ": excluded valve " ++ toString excluded.id ++ " is already open")])
      else
        Except.ok (setChannel mask valve.channel 1,
          [Event.read status, Event.write valve.channel 1],
          [LogMsg.info ("Valve " ++ toString valveid ++ " (" ++
            valve.description ++ ") opened")])

/-- `valveclose(valveid)`: look up the valve (IndexError if missing) and
perform the single write `set(STACK, channel, 0)`; no read, no
conflict check. -/
def valveclose (valveid : Nat) (mask : Nat) : Except PyErr Result :=
  match findValve valveid with
  | none => Except.error PyErr.indexError
  | some valve =>
    Except.ok (setChannel mask valve.channel 0,
      [Event.write valve.channel 0],
      [LogMsg.info ("Valve " ++ toString valveid ++ " (" ++
        valve.description ++ ") closed")])

/-- `allclose()`: one batched write `set(STACK, channels, 0)`. -/
def allclose (mask : Nat) : Result :=
  (setChannels mask channels 0, [Event.writeMany channels 0],
    [LogMsg.info "All Valves Closed"])

end ValveControl

namespace ValveControl

/-- `status(value)`: the string `closed` if the value is 0, otherwise `open`. -/
def status (value : Nat) : String :=
  if value = 0 then "closed" else "open"

/-- One record of `valvestatus()`: a valve id together with a status label. -/
structure ValveStatusEntry where
  valve : Nat
  status : String
deriving DecidableEq, Repr

/-- One record of `httpstatus()`: id, description and status label. -/
structure HttpStatusEntry where
  id : Nat
  description : String
  status : String
deriving DecidableEq, Repr

/-- `valvestatus()`: one `get_all` read, then one record per configured valve
with positive id, in configuration order. -/
def valvestatus (mask : Nat) : List ValveStatusEntry × List Event :=
  let states := mask
  (((valves.filter (fun v => v.id > 0)).map
    (fun v => { valve := v.id,
                status := status ((states >>> (v.channel - 1)) &&& 1) })),
   [Event.read states])

/-- `httpstatus()`: same single read, enriched records. -/
def httpstatus (mask : Nat) : List HttpStatusEntry × List Event :=
  let states := mask
  (((valves.filter (fun v => v.id > 0)).map
    (fun v => { id := v.id,
                description := v.description,
                status := status ((states >>> (v.channel - 1)) &&& 1) })),
   [Event.read states])

/-- Decimal value of a digit list; `none` when empty or when any character is
not an ASCII digit (so `int` fails on the empty string and on letters). -/
def digitsVal (cs : List Char) : Option Nat :=
  match cs with
  | [] => none
  | _ =>
    cs.foldl
      (fun acc c =>
        match acc with
        | some n => if c.isDigit then some (10 * n + (c.toNat - 48)) else none
        | none => none)
      (some 0)

/-- Modelled from the spec: the Python builtin `int()` applied to a string
(external to the repository). Surrounding ASCII whitespace is stripped, an
optional single sign is allowed, then one or more decimal digits; anything
else raises `ValueError` (`none` here). Underscore digit grouping and
non-ASCII whitespace are not modelled. -/
def pyInt? (s : String) : Option Int :=
  match ((s.data.dropWhile Char.isWhitespace).reverse.dropWhile
      Char.isWhitespace).reverse with
  | [] => none
  | '-' :: rest => (digitsVal rest).map (fun n => -(n : Int))
  | '+' :: rest => (digitsVal rest).map (fun n => (n : Int))
  | cs => (digitsVal cs).map (fun n => (n : Int))

/-- The body of the `try` block of `parsecontrol`. Valve ids parsed from the item
string are Python ints; the guard `0 < valve < 14` ensures the value passed on
to `valveopen`/`valveclose` is positive, so `Int.toNat` is faithful. The
`restart`/`pi` branch starts a 15 s `Timer`; the deferred reboot itself is an
OS action outside the register model, so only its immediate warning appears. -/
def parsecontrolBody (item command : String) (mask : Nat) : Except PyErr Result :=
  if item.take 5 = "valve" then
    match pyInt? (item.drop 5) with
    | none => Except.error PyErr.valueError
    | some valve =>
      if 0 < valve ∧ valve < 14 then
        if command = "open" then valveopen valve.toNat mask
        else if command = "close" then valveclose valve.toNat mask
        else Except.ok (mask, [], [LogMsg.warning "bad valve command"])
      else Except.ok (mask, [], [LogMsg.warning "bad valve number"])
  else if item = "closeallvalves" then Except.ok (allclose mask)
  else if item = "restart" then
    if command = "pi" then
      Except.ok (mask, [],
        [LogMsg.warning "Restart command recieved: system will restart in 15 seconds"])
    else Except.ok (mask, [], [])
  else Except.ok (mask, [], [])

/-- `parsecontrol(item, command)`: run the body and catch exactly `ValueError`
and `IndexError`, downgrading them to warnings; any other exception would
propagate to the caller (`Except.error`). -/
def parsecontrol (item command : String) (mask : Nat) : Except PyErr Result :=
  match parsecontrolBody item command mask with
  | Except.ok r => Except.ok r
  | Except.error PyErr.valueError =>
    Except.ok (mask, [], [LogMsg.warning "incorrect json message"])
  | Except.error PyErr.indexError =>
    Except.ok (mask, [], [LogMsg.warning "bad valve number"])
  | Except.error e => Except.error e

/-- `ready_channel = 4`, the spare MOSFET channel used for the ready blink. -/
def ready_channel : Nat := 4

/-- The module-level `for ch in channels: lib8mosind.set(STACK, ch, 0)` loop:
one write of 0 per configured channel, in order. -/
def initCloseEvents : List Event :=
  channels.map (fun ch => Event.write ch 0)

/-- The ready-indicator blink: three on/off pulses on `ready_channel`,
serialized in the order the `Timer`s fire (on at 0 s, off at 1 s, ...). -/
def readyBlinkEvents : List Event :=
  (List.range 3).flatMap
    (fun _ => [Event.write ready_channel 1, Event.write ready_channel 0])

/-- The register events of module initialization, in order: the close-all loop
runs to completion before any blink `Timer` fires. -/
def startupTrace : List Event :=
  initCloseEvents ++ readyBlinkEvents

/-- Projection of a result to its register-relevant part: the final bitmask
and the hardware events, dropping the log text. -/
def hw (r : Except PyErr Result) : Except PyErr (Nat × List Event) :=
  r.map (fun t => (t.1, t.2.1))

end ValveControl

namespace ValveControl

theorem bit_and_decomp (m k : Nat) : (m >>> k) &&& 1 = m / 2 ^ k % 2 := by
  rw [Nat.shiftRight_eq_div_pow, Nat.and_one_is_mod]

theorem bit_eq_one_iff (m k : Nat) :
    (m >>> k) &&& 1 = 1 ↔ m.testBit k = true := by
  rw [bit_and_decomp, Nat.testBit_to_div_mod]
  simp

theorem bit_eq_zero_iff (m k : Nat) :
    (m >>> k) &&& 1 = 0 ↔ m.testBit k = false := by
  rw [bit_and_decomp, Nat.testBit_to_div_mod]
  simp only [decide_eq_false_iff_not]
  omega

theorem testBit_setChannel_one_self (m ch : Nat) :
    (setChannel m ch 1).testBit (ch - 1) = true := by
  simp [setChannel, Nat.testBit_or, Nat.one_shiftLeft, Nat.testBit_two_pow]

theorem testBit_setChannel_zero_self (m ch : Nat) :
    (setChannel m ch 0).testBit (ch - 1) = false := by
  simp [setChannel, Nat.testBit_xor, Nat.testBit_and, Nat.one_shiftLeft,
    Nat.testBit_two_pow]

theorem testBit_setChannel_other (m ch b k : Nat) (h : k ≠ ch - 1) :
    (setChannel m ch b).testBit k = m.testBit k := by
  by_cases hb : b = 0 <;>
    simp [setChannel, hb, Nat.testBit_or, Nat.testBit_xor, Nat.testBit_and,
      Nat.one_shiftLeft, Nat.testBit_two_pow, Ne.symm h]

theorem bit_setChannel_one_self (m ch : Nat) :
    ((setChannel m ch 1) >>> (ch - 1)) &&& 1 = 1 := by
  rw [bit_eq_one_iff]
  exact testBit_setChannel_one_self m ch

theorem bit_setChannel_zero_self (m ch : Nat) :
    ((setChannel m ch 0) >>> (ch - 1)) &&& 1 = 0 := by
  rw [bit_eq_zero_iff]
  exact testBit_setChannel_zero_self m ch

theorem valveopen_one (mask : Nat) : valveopen 1 mask =
    if (mask >>> 1) &&& 1 = 1 then
      Except.ok (mask, [Event.read mask],
        [LogMsg.warning "Cannot open valve 1: excluded valve 2 is already open"])
    else
      Except.ok (setChannel mask 1 1, [Event.read mask, Event.write 1 1],
        [LogMsg.info "Valve 1 (Pipette input) opened"]) := rfl

theorem valveopen_two (mask : Nat) : valveopen 2 mask =
    if (mask >>> 0) &&& 1 = 1 then
      Except.ok (mask, [Event.read mask],
        [LogMsg.warning "Cannot open valve 2: excluded valve 1 is already open"])
    else
      Except.ok (setChannel mask 2 1, [Event.read mask, Event.write 2 1],
        [LogMsg.info "Valve 2 (Pipette output) opened"]) := rfl

theorem valveopen_ten (mask : Nat) : valveopen 10 mask =
    if (mask >>> 1) &&& 1 = 1 then
      Except.ok (mask, [Event.read mask],
        [LogMsg.warning "Cannot open valve 10: excluded valve 2 is already open"])
    else
      Except.ok (setChannel mask 3 1, [Event.read mask, Event.write 3 1],
        [LogMsg.info "Valve 10 (Turbo) opened"]) := rfl

/-- C1: for every configured valve A with excluded counterpart B, if the
bitmask read inside `open(A)` has the channel bit of B equal to 1, then the
call performs no hardware write: the register events are exactly the single
read and the mask is returned unchanged. -/
theorem interlock_exclusivity (A B : Valve) (hA : A ∈ valves)
    (hB : findValve A.excluded = some B) (mask : Nat)
    (hbit : (mask >>> (B.channel - 1)) &&& 1 = 1) :
    hw (valveopen A.id mask) = Except.ok (mask, [Event.read mask]) := by
  fin_cases hA
  · have hBe : (⟨2, 2, "Pipette output", 1⟩ : Valve) = B := Option.some.inj hB
    subst hBe
    have hbit2 : (mask >>> 1) &&& 1 = 1 := hbit
    rw [show (⟨1, 1, "Pipette input", 2⟩ : Valve).id = 1 from rfl, valveopen_one,
      if_pos hbit2]
    rfl
  · have hBe : (⟨1, 1, "Pipette input", 2⟩ : Valve) = B := Option.some.inj hB
    subst hBe
    have hbit2 : (mask >>> 0) &&& 1 = 1 := hbit
    rw [show (⟨2, 2, "Pipette output", 1⟩ : Valve).id = 2 from rfl, valveopen_two,
      if_pos hbit2]
    rfl
  · have hBe : (⟨2, 2, "Pipette output", 1⟩ : Valve) = B := Option.some.inj hB
    subst hBe
    have hbit2 : (mask >>> 1) &&& 1 = 1 := hbit
    rw [show (⟨10, 3, "Turbo", 2⟩ : Valve).id = 10 from rfl, valveopen_ten,
      if_pos hbit2]
    rfl

/-- C1 witness: valve 1 against mask 2, where the excluded valve 2 (channel 2)
is energized. -/
theorem interlock_exclusivity_witness :
    hw (valveopen 1 2) = Except.ok (2, [Event.read 2]) :=
  interlock_exclusivity ⟨1, 1, "Pipette input", 2⟩ ⟨2, 2, "Pipette output", 1⟩
    (by decide) (by decide) 2 (by decide)

/-- C2: for every configured valve A with excluded counterpart B, if the
bitmask read inside `open(A)` has the channel bit of B equal to 0, then the
call performs exactly the single read followed by the single write
`setChannel(A.channel, 1)`, and the channel bit of A in the resulting mask
is 1. -/
theorem safe_to_open (A B : Valve) (hA : A ∈ valves)
    (hB : findValve A.excluded = some B) (mask : Nat)
    (hbit : (mask >>> (B.channel - 1)) &&& 1 = 0) :
    hw (valveopen A.id mask) =
      Except.ok (setChannel mask A.channel 1,
        [Event.read mask, Event.write A.channel 1]) ∧
    ((setChannel mask A.channel 1) >>> (A.channel - 1)) &&& 1 = 1 := by
  fin_cases hA
  · have hBe : (⟨2, 2, "Pipette output", 1⟩ : Valve) = B := Option.some.inj hB
    subst hBe
    have hbit2 : (mask >>> 1) &&& 1 = 0 := hbit
    refine ⟨?_, bit_setChannel_one_self mask 1⟩
    rw [show (⟨1, 1, "Pipette input", 2⟩ : Valve).id = 1 from rfl, valveopen_one,
      if_neg (fun h => absurd (hbit2.symm.trans h) (by decide))]
    rfl
  · have hBe : (⟨1, 1, "Pipette input", 2⟩ : Valve) = B := Option.some.inj hB
    subst hBe
    have hbit2 : (mask >>> 0) &&& 1 = 0 := hbit
    refine ⟨?_, bit_setChannel_one_self mask 2⟩
    rw [show (⟨2, 2, "Pipette output", 1⟩ : Valve).id = 2 from rfl, valveopen_two,
      if_neg (fun h => absurd (hbit2.symm.trans h) (by decide))]
    rfl
  · have hBe : (⟨2, 2, "Pipette output", 1⟩ : Valve) = B := Option.some.inj hB
    subst hBe
    have hbit2 : (mask >>> 1) &&& 1 = 0 := hbit
    refine ⟨?_, bit_setChannel_one_self mask 3⟩
    rw [show (⟨10, 3, "Turbo", 2⟩ : Valve).id = 10 from rfl, valveopen_ten,
      if_neg (fun h => absurd (hbit2.symm.trans h) (by decide))]
    rfl

/-- C2 witness: valve 1 against the all-closed mask 0. -/
theorem safe_to_open_witness :
    hw (valveopen 1 0) = Except.ok (1, [Event.read 0, Event.write 1 1]) ∧
    ((1 : Nat) >>> 0) &&& 1 = 1 :=
  safe_to_open ⟨1, 1, "Pipette input", 2⟩ ⟨2, 2, "Pipette output", 1⟩
    (by decide) (by decide) 0 (by decide)

/-- C3: the exclusion relation is directed: valve 10 excludes valve 2, but
valve 2 excludes valve 1. From the all-closed register, `open(10)` writes
channel 3 and then `open(2)` also succeeds and writes channel 2, leaving
channels 2 and 3 both energized. -/
theorem directed_exclusion_sequence :
    (findValve 10).map (fun v => v.excluded) = some 2 ∧
    (findValve 2).map (fun v => v.excluded) = some 1 ∧
    hw (valveopen 10 0) = Except.ok (4, [Event.read 0, Event.write 3 1]) ∧
    hw (valveopen 2 4) = Except.ok (6, [Event.read 4, Event.write 2 1]) ∧
    (6 >>> (2 - 1)) &&& 1 = 1 ∧ (6 >>> (3 - 1)) &&& 1 = 1 := by
  decide

/-- C4: for every configured valve X and every register mask, `close(X)`
performs exactly the single write `setChannel(X.channel, 0)` — no read, no
conflict check — and the channel bit of X in the resulting mask is 0. -/
theorem close_unconditional (X : Valve) (hX : X ∈ valves) (mask : Nat) :
    hw (valveclose X.id mask) =
      Except.ok (setChannel mask X.channel 0, [Event.write X.channel 0]) ∧
    ((setChannel mask X.channel 0) >>> (X.channel - 1)) &&& 1 = 0 := by
  fin_cases hX
  · exact ⟨rfl, bit_setChannel_zero_self mask 1⟩
  · exact ⟨rfl, bit_setChannel_zero_self mask 2⟩
  · exact ⟨rfl, bit_setChannel_zero_self mask 3⟩

/-- C4 witness: valve 2 against mask 7 (all three channels energized). -/
theorem close_unconditional_witness :
    hw (valveclose 2 7) = Except.ok (5, [Event.write 2 0]) ∧
    ((5 : Nat) >>> 1) &&& 1 = 0 :=
  close_unconditional ⟨2, 2, "Pipette output", 1⟩ (by decide) 7

/-- C5: after `closeAll()` every configured channel bit is 0, for every
starting mask; the operation is the single batched write of 0 to the
configured channels and leaves every bit outside the configured channels
unchanged. -/
theorem closeall_totality (mask : Nat) :
    (∀ ch ∈ channels, ((allclose mask).1 >>> (ch - 1)) &&& 1 = 0) ∧
    (allclose mask).2.1 = [Event.writeMany channels 0] ∧
    (∀ k : Nat, (k + 1) ∉ channels →
      ((allclose mask).1).testBit k = mask.testBit k) := by
  refine ⟨?_, rfl, ?_⟩
  · intro ch hch
    fin_cases hch
    · rw [bit_eq_zero_iff]
      show (setChannel (setChannel (setChannel mask 1 0) 2 0) 3 0).testBit 0 = false
      rw [testBit_setChannel_other _ 3 0 0 (by omega),
        testBit_setChannel_other _ 2 0 0 (by omega)]
      exact testBit_setChannel_zero_self mask 1
    · rw [bit_eq_zero_iff]
      show (setChannel (setChannel (setChannel mask 1 0) 2 0) 3 0).testBit 1 = false
      rw [testBit_setChannel_other _ 3 0 1 (by omega)]
      exact testBit_setChannel_zero_self (setChannel mask 1 0) 2
    · rw [bit_eq_zero_iff]
      show (setChannel (setChannel (setChannel mask 1 0) 2 0) 3 0).testBit 2 = false
      exact testBit_setChannel_zero_self (setChannel (setChannel mask 1 0) 2 0) 3
  · intro k hk
    have hk3 : k ≠ 0 ∧ k ≠ 1 ∧ k ≠ 2 := by
      simp [channels] at hk
      omega
    show (setChannel (setChannel (setChannel mask 1 0) 2 0) 3 0).testBit k =
      mask.testBit k
    rw [testBit_setChannel_other _ 3 0 k (by omega),
      testBit_setChannel_other _ 2 0 k (by omega),
      testBit_setChannel_other _ 1 0 k (by omega)]

/-- C5 witness: starting from mask 13 (bits 0, 2 and 3 set), channel 1 ends
closed and bit 3 — outside the configured channels — is preserved. -/
theorem closeall_totality_witness :
    ((allclose 13).1 >>> 0) &&& 1 = 0 ∧
    ((allclose 13).1).testBit 3 = (13 : Nat).testBit 3 :=
  ⟨(closeall_totality 13).1 1 (by decide), (closeall_totality 13).2.2 3 (by decide)⟩

end ValveControl

namespace ValveControl

theorem valveopen_no_other (v m : Nat) (s : String) :
    valveopen v m ≠ Except.error (PyErr.other s) := by
  unfold valveopen
  cases h1 : findValve v with
  | none => simp [h1]
  | some valve =>
    cases h2 : findValve valve.excluded with
    | none => simp [h1, h2]
    | some ex =>
      simp only [h1, h2]
      split <;> simp

theorem valveclose_no_other (v m : Nat) (s : String) :
    valveclose v m ≠ Except.error (PyErr.other s) := by
  unfold valveclose
  cases h1 : findValve v <;> simp

theorem parsecontrolBody_no_other (item command : String) (mask : Nat) (s : String) :
    parsecontrolBody item command mask ≠ Except.error (PyErr.other s) := by
  unfold parsecontrolBody
  split
  · cases hp : pyInt? (item.drop 5) with
    | none => simp
    | some n =>
      dsimp only
      split
      · split
        · exact valveopen_no_other _ _ _
        · split
          · exact valveclose_no_other _ _ _
          · simp
      · simp
  · split
    · simp
    · split
      · split <;> simp
      · simp

/-- C6: `dispatch` never raises to its caller — for every item, command and
mask the result is a normal return (every exception the body can produce is
one of the two caught kinds) — and the three probe calls return with no
register event and an unchanged mask. -/
theorem dispatch_robustness :
    (∀ (item command : String) (mask : Nat),
      ∃ r, parsecontrol item command mask = Except.ok r) ∧
    (∀ mask : Nat, parsecontrol "valve99" "open" mask =
      Except.ok (mask, [], [LogMsg.warning "bad valve number"])) ∧
    (∀ mask : Nat, parsecontrol "valveX" "open" mask =
      Except.ok (mask, [], [LogMsg.warning "incorrect json message"])) ∧
    (∀ mask : Nat, parsecontrol "bogus" "open" mask =
      Except.ok (mask, [], [])) := by
  refine ⟨?_, fun mask => rfl, fun mask => rfl, fun mask => rfl⟩
  intro item command mask
  unfold parsecontrol
  cases hb : parsecontrolBody item command mask with
  | ok r => exact ⟨r, rfl⟩
  | error e =>
    cases e with
    | valueError => exact ⟨_, rfl⟩
    | indexError => exact ⟨_, rfl⟩
    | other s => exact absurd hb (parsecontrolBody_no_other item command mask s)

/-- C7 counterexample: the unrecognized item string `bogus` is dispatched
without any logged warning — the call falls through the item chain silently,
returning the unchanged mask, no events and an empty log. -/
theorem unrecognized_item_silent :
    parsecontrol "bogus" "open" 0 = Except.ok (0, [], []) ∧
    ¬ (∃ r w, parsecontrol "bogus" "open" 0 = Except.ok r ∧
        LogMsg.warning w ∈ r.2.2) := by
  refine ⟨rfl, ?_⟩
  rintro ⟨r, w, hr, hmem⟩
  rw [show parsecontrol "bogus" "open" 0 = Except.ok (0, [], []) from rfl] at hr
  injection hr with hr
  rw [← hr] at hmem
  simp at hmem

/-- C7 amended: a non-integer suffix after `valve` and an out-of-range valve
number each produce a logged warning and the command is discarded; but an
item string that matches no recognized item is silently discarded with no
warning, no exception and no register action. -/
theorem malformed_warned (item command : String) (mask : Nat) :
    (item.take 5 = "valve" → pyInt? (item.drop 5) = none →
      parsecontrol item command mask =
        Except.ok (mask, [], [LogMsg.warning "incorrect json message"])) ∧
    (∀ n : Int, item.take 5 = "valve" → pyInt? (item.drop 5) = some n →
      ¬(0 < n ∧ n < 14) →
      parsecontrol item command mask =
        Except.ok (mask, [], [LogMsg.warning "bad valve number"])) ∧
    (item.take 5 ≠ "valve" → item ≠ "closeallvalves" → item ≠ "restart" →
      parsecontrol item command mask = Except.ok (mask, [], [])) := by
  refine ⟨?_, ?_, ?_⟩
  · intro h5 hp
    have hb : parsecontrolBody item command mask =
        Except.error PyErr.valueError := by
      unfold parsecontrolBody
      rw [if_pos h5, hp]
    unfold parsecontrol
    rw [hb]
  · intro n h5 hp hr
    have hb : parsecontrolBody item command mask =
        Except.ok (mask, [], [LogMsg.warning "bad valve number"]) := by
      unfold parsecontrolBody
      rw [if_pos h5, hp]
      dsimp only
      rw [if_neg hr]
    unfold parsecontrol
    rw [hb]
  · intro h5 hca hre
    have hb : parsecontrolBody item command mask = Except.ok (mask, [], []) := by
      unfold parsecontrolBody
      rw [if_neg h5, if_neg hca, if_neg hre]
    unfold parsecontrol
    rw [hb]

/-- C7 amended witness: the two warned classes at concrete inputs. -/
theorem malformed_warned_witness :
    parsecontrol "valveX" "open" 0 =
      Except.ok (0, [], [LogMsg.warning "incorrect json message"]) ∧
    parsecontrol "valve99" "open" 0 =
      Except.ok (0, [], [LogMsg.warning "bad valve number"]) :=
  ⟨(malformed_warned "valveX" "open" 0).1 (by decide) (by decide),
   (malformed_warned "valve99" "open" 0).2.1 99 (by decide) (by decide) (by decide)⟩

/-- C8: an in-range valve number that is not a configured id is tolerated as a
no-op with the `bad valve number` warning, for both `open` and `close`: the
IndexError from the failed configuration lookup is caught before any register
access, so no event occurs and the mask is unchanged. -/
theorem unknown_valve_noop (N : Nat) (h1 : 0 < N) (h2 : N < 14)
    (h3 : N ≠ 1 ∧ N ≠ 2 ∧ N ≠ 10) (mask : Nat) :
    parsecontrol ("valve" ++ toString N) "open" mask =
      Except.ok (mask, [], [LogMsg.warning "bad valve number"]) ∧
    parsecontrol ("valve" ++ toString N) "close" mask =
      Except.ok (mask, [], [LogMsg.warning "bad valve number"]) := by
  interval_cases N <;> first
  | exact ⟨rfl, rfl⟩
  | omega

/-- C8 witness: valve number 3 with mask 9. -/
theorem unknown_valve_noop_witness :
    parsecontrol "valve3" "open" 9 =
      Except.ok (9, [], [LogMsg.warning "bad valve number"]) ∧
    parsecontrol "valve3" "close" 9 =
      Except.ok (9, [], [LogMsg.warning "bad valve number"]) :=
  unknown_valve_noop 3 (by decide) (by decide) (by decide) 9

theorem status_mod_two (x : Nat) :
    status (x % 2) = if x % 2 = 1 then "open" else "closed" := by
  have h : x % 2 = 0 ∨ x % 2 = 1 := by omega
  rcases h with h | h <;> simp [status, h]

/-- C9: `valvestatus` and `httpstatus` each perform exactly one read and no
write; each returns one record per configured valve with positive id, in
configuration order, whose status is `open` exactly when the channel bit is 1
and `closed` when it is 0; and the id/status content of the enriched shape
coincides with the compact shape over the same read. -/
theorem status_derivation (mask : Nat) :
    (valvestatus mask).2 = [Event.read mask] ∧
    (httpstatus mask).2 = [Event.read mask] ∧
    (valvestatus mask).1 = (valves.filter (fun v => v.id > 0)).map
      (fun v => { valve := v.id,
                  status := if (mask >>> (v.channel - 1)) &&& 1 = 1
                    then "open" else "closed" }) ∧
    (httpstatus mask).1 = (valves.filter (fun v => v.id > 0)).map
      (fun v => { id := v.id, description := v.description,
                  status := if (mask >>> (v.channel - 1)) &&& 1 = 1
                    then "open" else "closed" }) ∧
    (httpstatus mask).1.map (fun e => (e.id, e.status)) =
      (valvestatus mask).1.map (fun e => (e.valve, e.status)) := by
  refine ⟨rfl, rfl, ?_, ?_, ?_⟩
  · simp [valvestatus, valves, status_mod_two]
  · simp [httpstatus, valves, status_mod_two]
  · simp [valvestatus, httpstatus, valves, status_mod_two]

/-- C10: during initialization every configured channel is written to 0
exactly once, all of these writes precede the readiness blink, the blink
touches only the spare `ready_channel`, and that channel is disjoint from
every valve channel. -/
theorem startup_failsafe :
    startupTrace = initCloseEvents ++ readyBlinkEvents ∧
    initCloseEvents = channels.map (fun ch => Event.write ch 0) ∧
    (∀ ch ∈ channels, startupTrace.count (Event.write ch 0) = 1) ∧
    (∀ e ∈ readyBlinkEvents,
      e = Event.write ready_channel 1 ∨ e = Event.write ready_channel 0) ∧
    ready_channel ∉ channels := by
  decide

/-- C10 witness: channel 1 is closed exactly once in the startup trace. -/
theorem startup_failsafe_witness :
    startupTrace.count (Event.write 1 0) = 1 :=
  startup_failsafe.2.2.1 1 (by decide)

end ValveControl
